import Mathlib

/-!
Verification development for the MOM (minutes-of-meeting) automation service
(`src/main.py`).  The service is a small web application over four document
collections (users, reports, action_items, admins).  We embed the database
state as four Lean lists, each Mongo primitive as the corresponding list
operation (`find_one` is `List.find?` on insertion order, `insert_one`
appends, `delete_one` erases the first match, `delete_many` filters), and
each request handler as a pure function from the state to a result paired
with the successor state.  The external pieces — the bcrypt context and the
Gemini language-model client — are passed in as opaque function parameters:
`Option`-valued results model a raised exception (`none`) versus a normal
return (`some`).
-/

namespace Mom

/-- Pydantic `Report` model: one standup entry (src/main.py lines 47-52). -/
structure Report where
  date : String
  name : String
  yesterday : String
  today : String
  blockers : String
deriving Repr, DecidableEq

/-- Pydantic `ActionItems` model (src/main.py lines 61-63). -/
structure ActionItems where
  date : String
  items : String
deriving Repr, DecidableEq

/-- Pydantic `Admin` model (src/main.py lines 57-59); `password` stores the hash. -/
structure Admin where
  email : String
  password : String
deriving Repr, DecidableEq

/-- The four MongoDB collections of the service (src/main.py lines 37-40).
A `User` document holds only a `name`, so the users collection is a list of
names. -/
structure DB where
  users : List String
  reports : List Report
  action_items : List ActionItems
  admins : List Admin
deriving Repr, DecidableEq

/-- Error responses raised by the handlers via `HTTPException`, named after
the taxonomy the status codes realise: 400 for validation and conflicts,
401 unauthorized, 404 not found, 500 generation failure. -/
inductive HErr where
  | validationError
  | conflict
  | notFound
  | unauthorized
  | generationError
deriving Repr, DecidableEq

/-- HTTP status code carried by each error (the `status_code` arguments in
src/main.py). -/
def HErr.status : HErr → Nat
  | .validationError => 400
  | .conflict => 400
  | .notFound => 404
  | .unauthorized => 401
  | .generationError => 500

/-- Word counter over a character list: the number of maximal runs of
non-whitespace characters (the boolean records whether the previous
character was inside such a run). -/
def count_words_chars : List Char → Bool → Nat
  | [], _ => 0
  | c :: cs, inWord =>
      if c.isWhitespace then count_words_chars cs false
      else (if inWord then 0 else 1) + count_words_chars cs true

/-- Inner helper `count_words` of `save_report` (src/main.py lines 161-162):
`len(text.strip().split())`, the number of maximal non-empty runs between
whitespace (whitespace modelled by `Char.isWhitespace`). -/
def count_words (text : String) : Nat :=
  count_words_chars text.data false

/-- Python `not text.strip()`: the string is empty after trimming, i.e.
every character is whitespace. -/
def is_blank (text : String) : Bool :=
  text.data.all Char.isWhitespace

/-- Python `text.strip()`: drop leading and trailing whitespace. -/
def py_strip (text : String) : String :=
  ⟨((text.data.dropWhile Char.isWhitespace).reverse.dropWhile Char.isWhitespace).reverse⟩

/-- Handler `save_report` (src/main.py lines 152-176).  Word-count check,
then emptiness check, then the pre-insert existence check on (date, name);
on success the report is inserted.  The second component is the state after
the call (unchanged whenever an exception is raised). -/
def save_report (date name yesterday today blockers : String) (s : DB) :
    Except HErr String × DB :=
  if count_words yesterday > 10 || count_words today > 10 then
    (.error .validationError, s)
  else if is_blank yesterday || is_blank today then
    (.error .validationError, s)
  else
    match s.reports.find? (fun r => r.date == date && r.name == name) with
    | some _ => (.error .conflict, s)
    | none =>
        (.ok "Report saved successfully",
         { s with reports := s.reports ++ [⟨date, name, yesterday, today, blockers⟩] })

/-- Handler `check_report` (src/main.py lines 136-149): read-only lookup of
the stored report for (date, name). -/
def check_report (date name : String) (s : DB) : Option Report :=
  s.reports.find? (fun r => r.date == date && r.name == name)

/-- Handler `add_user` (src/main.py lines 194-201). -/
def add_user (name : String) (s : DB) : Except HErr String × DB :=
  match s.users.find? (fun u => u == name) with
  | some _ => (.error .conflict, s)
  | none => (.ok "User added successfully", { s with users := s.users ++ [name] })

/-- Handler `delete_user` (src/main.py lines 204-212): 404 when the name is
absent; otherwise `delete_one` on users (first match) and `delete_many` on
reports with that name. -/
def delete_user (name : String) (s : DB) : Except HErr String × DB :=
  match s.users.find? (fun u => u == name) with
  | none => (.error .notFound, s)
  | some _ =>
      (.ok "User deleted successfully",
       { s with users := s.users.erase name,
                reports := s.reports.filter (fun r => !(r.name == name)) })

/-- Report lines of the prompt: the `content` accumulator of
`generate_action_items` (src/main.py lines 245-247). -/
def report_content (reports : List Report) : String :=
  reports.foldl
    (fun acc r =>
      acc ++ r.name ++ ":\n- Yesterday: " ++ r.yesterday ++ "\n- Today: " ++
        r.today ++ "\n- Blockers: " ++ r.blockers ++ "\n\n")
    "Daily Reports:\n"

/-- Fixed instruction block of the prompt (src/main.py lines 249-260), up to
the interpolated `content`. -/
def prompt_instructions : String :=
  "From the following daily reports, extract the main and unique action items based on the \x27Today\x27s Priorities\x27 field. \n" ++
  "    Follow these guidelines:\n" ++
  "    - Extract each distinct task as a separate action item - do not combine unrelated tasks, even if they come from the same person.\n" ++
  "    - For example, if one person mentions both \"lead generation\" and \"MOM automation implementation\", treat them as two separate action items.\n" ++
  "    - Only consolidate tasks that are directly related (e.g., multiple aspects of the same feature like \"enhancing and testing\" the same agents).\n" ++
  "    - Focus on the primary objectives for the day.\n" ++
  "    - Each action item should be distinct and represent a unique goal or task.\n" ++
  "    - Output in bullet point format using this structure:\n" ++
  "    • [Action Item]\n" ++
  "    - Ensure no unrelated tasks are merged together.\n\n" ++
  "    Reports:\n"

/-- The full prompt handed to the language model for a list of reports. -/
def prompt_for (reports : List Report) : String :=
  prompt_instructions ++ report_content reports

/-- Handler `generate_action_items` (src/main.py lines 235-273).  `llm`
models `ChatGoogleGenerativeAI.ainvoke`: `some text` is a normal response
with `response.content = text`, `none` a raised exception.  The result is
(response, successor state, whether the external model was invoked). -/
def generate_action_items (llm : String → Option String) (date : String) (s : DB) :
    Except HErr String × DB × Bool :=
  let reports := s.reports.filter (fun r => r.date == date)
  if reports.isEmpty then
    (.error .notFound, s, false)
  else
    match s.action_items.find? (fun a => a.date == date) with
    | some existing => (.ok existing.items, s, false)
    | none =>
        match llm (prompt_for reports) with
        | some resp =>
            let text := py_strip resp
            (.ok text, { s with action_items := s.action_items ++ [⟨date, text⟩] }, true)
        | none => (.error .generationError, s, true)

/-- Handler `get_action_items` (src/main.py lines 276-281): cached text, or
the empty string when nothing is cached. -/
def get_action_items (date : String) (s : DB) : String :=
  match s.action_items.find? (fun a => a.date == date) with
  | some a => a.items
  | none => ""

/-- The docx document produced by `download_report`: title heading, table
header row, table data rows, and the optional Action Items paragraph. -/
structure MomDocument where
  title : String
  header : List String
  rows : List (List String)
  actionSection : Option String
deriving Repr, DecidableEq

/-- The fixed `headers` list of `download_report` (src/main.py line 299). -/
def table_headers : List String :=
  ["S.No", "Team Member", "Yesterday\x27s Tasks", "Today\x27s Priorities", "Blockers"]

/-- Handler `download_report` (src/main.py lines 284-319).  One data row per
report for the date, numbered from 1; the blockers cell is
`report.blockers or "None"` (the empty string is the only falsy string); the
Action Items section is added only when a cache record exists and its
`items` is non-empty. -/
def download_report (date : String) (s : DB) : Except HErr MomDocument :=
  let reports := s.reports.filter (fun r => r.date == date)
  let action_items := s.action_items.find? (fun a => a.date == date)
  if reports.isEmpty then
    .error .notFound
  else
    .ok
      { title := "MOM Consolidated Report - " ++ date
        header := table_headers
        rows := reports.enum.map (fun p =>
          [toString (p.1 + 1), p.2.name, p.2.yesterday, p.2.today,
           if p.2.blockers == "" then "None" else p.2.blockers])
        actionSection :=
          match action_items with
          | some a => if a.items == "" then none else some a.items
          | none => none }

/-- Helper `verify_password` (src/main.py lines 70-75).  `pv` models
`pwd_context.verify`: `some b` is a normal boolean return, `none` a raised
exception, which the handler catches and turns into `false`. -/
def verify_password (pv : String → String → Option Bool)
    (plain_password hashed_password : String) : Bool :=
  match pv plain_password hashed_password with
  | some b => b
  | none => false

/-- Helper `authenticate_admin` (src/main.py lines 78-88). -/
def authenticate_admin (pv : String → String → Option Bool)
    (email password : String) (s : DB) : Bool :=
  match s.admins.find? (fun a => a.email == email) with
  | none => false
  | some admin => verify_password pv password admin.password

/-- Handler `login` (src/main.py lines 109-117): on success the bearer token
in the cookie is the email itself; otherwise a 401 is raised. -/
def login (pv : String → String → Option Bool)
    (email password : String) (s : DB) : Except HErr String :=
  if authenticate_admin pv email password s then .ok email
  else .error .unauthorized

/-- Default admin credentials seeded at startup (src/main.py lines 324-325). -/
def admin_email : String := "aravind@gmail.com"

/-- Default admin plaintext password (src/main.py line 325). -/
def admin_password : String := "Admin@1234"

/-- Startup hook `startup_event` (src/main.py lines 322-330).  `hash` models
`pwd_context.hash`.  The guard looks up an admin with the fixed default
email. -/
def startup_event (hash : String → String) (s : DB) : DB :=
  match s.admins.find? (fun a => a.email == admin_email) with
  | some _ => s
  | none => { s with admins := s.admins ++ [⟨admin_email, hash admin_password⟩] }

/-- Same (date, name) key, the duplicate criterion of `save_report`. -/
def same_pair (r1 r2 : Report) : Bool :=
  r1.date == r2.date && r1.name == r2.name

/-- No two stored reports share a (date, name) pair. -/
def no_dup_pairs : List Report → Bool
  | [] => true
  | r :: rs => rs.all (fun x => !same_pair r x) && no_dup_pairs rs

/-- One `submitReport` call, keeping only the successor state (an error
leaves the state as it was). -/
def apply_submission (sub : Report) (s : DB) : DB :=
  (save_report sub.date sub.name sub.yesterday sub.today sub.blockers s).2

/-- A sequence of sequential `submitReport` calls. -/
def apply_submissions (subs : List Report) (s : DB) : DB :=
  subs.foldl (fun st sub => apply_submission sub st) s

/-! Helper lemmas shared by the claim theorems. -/

theorem no_dup_pairs_append (l : List Report) (x : Report)
    (h1 : no_dup_pairs l = true) (h2 : ∀ r ∈ l, same_pair r x = false) :
    no_dup_pairs (l ++ [x]) = true := by
  induction l with
  | nil => simp [no_dup_pairs]
  | cons r rs ih =>
      simp only [no_dup_pairs, List.cons_append, Bool.and_eq_true, List.all_eq_true] at h1 ⊢
      refine ⟨?_, ih h1.2 (fun a ha => h2 a (List.mem_cons_of_mem _ ha))⟩
      intro a ha
      rcases List.mem_append.1 ha with h | h
      · exact h1.1 a h
      · have hx : a = x := by simpa using h
        subst hx
        have := h2 r (List.mem_cons_self _ _)
        simp [this]

theorem save_report_preserves_no_dup (d n y t b : String) (s : DB)
    (h : no_dup_pairs s.reports = true) :
    no_dup_pairs (save_report d n y t b s).2.reports = true := by
  unfold save_report
  split
  · exact h
  split
  · exact h
  split
  · exact h
  · rename_i hfind
    refine no_dup_pairs_append _ _ h ?_
    intro r hr
    have := List.find?_eq_none.1 hfind r hr
    simpa [same_pair] using this

theorem apply_submissions_no_dup (subs : List Report) (s : DB)
    (h : no_dup_pairs s.reports = true) :
    no_dup_pairs (apply_submissions subs s).reports = true := by
  induction subs generalizing s with
  | nil => simpa [apply_submissions] using h
  | cons sub rest ih =>
      have hstep := save_report_preserves_no_dup sub.date sub.name sub.yesterday
        sub.today sub.blockers s h
      simpa [apply_submissions, apply_submission] using
        ih ((save_report sub.date sub.name sub.yesterday sub.today sub.blockers s).2) hstep

/-- C1: over any sequence of sequential submitReport calls the store keeps at
most one Report per (date, name) pair, and a single submission aimed at a
pair that already has a stored Report fails (with the 400 Conflict error as
soon as it passes field validation) and leaves the store unchanged. -/
theorem c1_unique_report_per_pair (subs : List Report) (s : DB)
    (hinv : no_dup_pairs s.reports = true) :
    no_dup_pairs (apply_submissions subs s).reports = true ∧
    ∀ d n y t b : String, (∃ r ∈ s.reports, r.date = d ∧ r.name = n) →
      (save_report d n y t b s).2 = s ∧
      (∃ e, (save_report d n y t b s).1 = Except.error e) ∧
      (count_words y ≤ 10 → count_words t ≤ 10 →
        is_blank y = false → is_blank t = false →
        (save_report d n y t b s).1 = Except.error HErr.conflict) := by
  refine ⟨apply_submissions_no_dup subs s hinv, ?_⟩
  intro d n y t b hdup
  obtain ⟨r, hr, hrd, hrn⟩ := hdup
  cases hsome : s.reports.find? (fun r => r.date == d && r.name == n) with
  | none =>
      exfalso
      have := List.find?_eq_none.1 hsome r hr
      simp [hrd, hrn] at this
  | some r0 =>
      by_cases h1 : count_words y > 10 ∨ count_words t > 10
      · have hb : (decide (count_words y > 10) || decide (count_words t > 10)) = true := by
          rcases h1 with h | h <;> simp [h]
        refine ⟨by simp [save_report, hb], ⟨HErr.validationError, by simp [save_report, hb]⟩, ?_⟩
        intro hy ht _ _
        exfalso
        rcases h1 with h | h <;> omega
      · have hb : (decide (count_words y > 10) || decide (count_words t > 10)) = false := by
          rw [not_or] at h1
          simp [h1.1, h1.2]
        by_cases h2 : is_blank y = true ∨ is_blank t = true
        · have hb2 : (is_blank y || is_blank t) = true := by
            rcases h2 with h | h <;> simp [h]
          refine ⟨by simp [save_report, hb, hb2],
            ⟨HErr.validationError, by simp [save_report, hb, hb2]⟩, ?_⟩
          intro _ _ hye hte
          exfalso
          rcases h2 with h | h
          · rw [hye] at h; exact Bool.false_ne_true h
          · rw [hte] at h; exact Bool.false_ne_true h
        · have hb2 : (is_blank y || is_blank t) = false := by
            rw [not_or, Bool.not_eq_true, Bool.not_eq_true] at h2
            simp [h2.1, h2.2]
          exact ⟨by simp [save_report, hb, hb2, hsome],
            ⟨HErr.conflict, by simp [save_report, hb, hb2, hsome]⟩,
            fun _ _ _ _ => by simp [save_report, hb, hb2, hsome]⟩

/-- Witness for C1 at a concrete store holding a report for
(2024-01-01, Alice). -/
theorem c1_unique_report_per_pair_w :
    no_dup_pairs (apply_submissions
      [⟨"2024-01-01", "Alice", "wrote tests", "review PR", ""⟩]
      ⟨[], [⟨"2024-01-01", "Alice", "a", "b", ""⟩], [], []⟩).reports = true ∧
    (save_report "2024-01-01" "Alice" "x" "y" ""
      ⟨[], [⟨"2024-01-01", "Alice", "a", "b", ""⟩], [], []⟩).1 =
      Except.error HErr.conflict := by
  have h := c1_unique_report_per_pair
    [⟨"2024-01-01", "Alice", "wrote tests", "review PR", ""⟩]
    ⟨[], [⟨"2024-01-01", "Alice", "a", "b", ""⟩], [], []⟩ (by decide)
  refine ⟨h.1, ?_⟩
  have h2 := h.2 "2024-01-01" "Alice" "x" "y" ""
    ⟨⟨"2024-01-01", "Alice", "a", "b", ""⟩, by decide, by decide, by decide⟩
  exact h2.2.2 (by decide) (by decide) (by decide) (by decide)

/-- C2: a submission where `yesterday` or `today` has more than 10
whitespace-separated words, or is empty after trimming, fails with the 400
ValidationError and leaves the store unchanged; otherwise, absent a
duplicate, the report with exactly the submitted fields is appended to the
store. -/
theorem c2_word_count_validation (d n y t b : String) (s : DB) :
    (count_words y > 10 ∨ count_words t > 10 ∨
        is_blank y = true ∨ is_blank t = true →
      save_report d n y t b s = (Except.error HErr.validationError, s)) ∧
    (count_words y ≤ 10 → count_words t ≤ 10 →
      is_blank y = false → is_blank t = false →
      s.reports.find? (fun r => r.date == d && r.name == n) = none →
      save_report d n y t b s =
        (Except.ok "Report saved successfully",
         { s with reports := s.reports ++ [⟨d, n, y, t, b⟩] })) := by
  constructor
  · intro h
    by_cases h1 : count_words y > 10 ∨ count_words t > 10
    · have hb : (decide (count_words y > 10) || decide (count_words t > 10)) = true := by
        rcases h1 with h' | h' <;> simp [h']
      simp [save_report, hb]
    · have hb : (decide (count_words y > 10) || decide (count_words t > 10)) = false := by
        rw [not_or] at h1
        simp [h1.1, h1.2]
      have h2 : is_blank y = true ∨ is_blank t = true := by
        rcases h with h' | h' | h' | h'
        · exact absurd (Or.inl h') h1
        · exact absurd (Or.inr h') h1
        · exact Or.inl h'
        · exact Or.inr h'
      have hb2 : (is_blank y || is_blank t) = true := by
        rcases h2 with h' | h' <;> simp [h']
      simp [save_report, hb, hb2]
  · intro hy ht hye hte hfind
    have hb : (decide (count_words y > 10) || decide (count_words t > 10)) = false := by
      simp [Nat.not_lt.2 hy, Nat.not_lt.2 ht]
    have hb2 : (is_blank y || is_blank t) = false := by
      simp [hye, hte]
    simp [save_report, hb, hb2, hfind]

/-- Witness for C2 at concrete valid and invalid submissions. -/
theorem c2_word_count_validation_w :
    save_report "2024-01-01" "Alice"
      "one two three four five six seven eight nine ten eleven" "review PR" ""
      ⟨[], [], [], []⟩ =
      (Except.error HErr.validationError, ⟨[], [], [], []⟩) ∧
    save_report "2024-01-01" "Alice" "wrote tests" "review PR" ""
      ⟨[], [], [], []⟩ =
      (Except.ok "Report saved successfully",
       ⟨[], [⟨"2024-01-01", "Alice", "wrote tests", "review PR", ""⟩], [], []⟩) := by
  constructor
  · exact (c2_word_count_validation "2024-01-01" "Alice"
      "one two three four five six seven eight nine ten eleven" "review PR" ""
      ⟨[], [], [], []⟩).1 (Or.inl (by decide))
  · exact (c2_word_count_validation "2024-01-01" "Alice" "wrote tests" "review PR" ""
      ⟨[], [], [], []⟩).2 (by decide) (by decide) (by decide) (by decide) (by decide)

/-- C3 counterexample: `save_report` never consults the users collection, so
a submission whose name ("Ghost") is absent from the User Directory (here
empty) is accepted and persisted all the same. -/
theorem c3_name_not_checked_cex :
    (save_report "2024-01-01" "Ghost" "wrote tests" "review PR" ""
        ⟨[], [], [], []⟩).1 = Except.ok "Report saved successfully" ∧
    (save_report "2024-01-01" "Ghost" "wrote tests" "review PR" ""
        ⟨[], [], [], []⟩).2.reports =
      [⟨"2024-01-01", "Ghost", "wrote tests", "review PR", ""⟩] ∧
    (([] : List String).contains "Ghost" = false) :=
  ⟨rfl, rfl, rfl⟩

/-- C3 amended: `save_report` does not consult the User Directory at all —
acceptance depends only on field validation and (date, name) uniqueness, so
a valid, non-duplicate submission whose name is absent from the directory is
persisted, and the users collection is untouched. -/
theorem c3_no_directory_check (d n y t b : String) (s : DB)
    (_hn : s.users.contains n = false)
    (hy : count_words y ≤ 10) (ht : count_words t ≤ 10)
    (hye : is_blank y = false) (hte : is_blank t = false)
    (hfind : s.reports.find? (fun r => r.date == d && r.name == n) = none) :
    (save_report d n y t b s).1 = Except.ok "Report saved successfully" ∧
    (save_report d n y t b s).2.reports = s.reports ++ [⟨d, n, y, t, b⟩] ∧
    (save_report d n y t b s).2.users = s.users := by
  have hb : (decide (count_words y > 10) || decide (count_words t > 10)) = false := by
    simp [Nat.not_lt.2 hy, Nat.not_lt.2 ht]
  have hb2 : (is_blank y || is_blank t) = false := by
    simp [hye, hte]
  refine ⟨?_, ?_, ?_⟩ <;> simp [save_report, hb, hb2, hfind]

/-- Witness for C3 amended at a concrete submission for a name outside the
directory. -/
theorem c3_no_directory_check_w :
    (save_report "2024-01-01" "Ghost" "wrote tests" "review PR" ""
        ⟨["Alice"], [], [], []⟩).1 = Except.ok "Report saved successfully" ∧
    (save_report "2024-01-01" "Ghost" "wrote tests" "review PR" ""
        ⟨["Alice"], [], [], []⟩).2.reports =
      [⟨"2024-01-01", "Ghost", "wrote tests", "review PR", ""⟩] ∧
    (save_report "2024-01-01" "Ghost" "wrote tests" "review PR" ""
        ⟨["Alice"], [], [], []⟩).2.users = ["Alice"] := by
  have h := c3_no_directory_check "2024-01-01" "Ghost" "wrote tests" "review PR" ""
    ⟨["Alice"], [], [], []⟩ (by decide) (by decide) (by decide) (by decide) (by decide) (by rfl)
  exact ⟨h.1, h.2.1, h.2.2⟩

/-- C4: when reports exist for the date and an ActionItems record is already
cached, `generate_action_items` returns exactly the cached text, leaves the
state unchanged and never invokes the external model; consequently any
successful call is followed by a second call that returns the same text with
no further external invocation. -/
theorem c4_generate_idempotent (llm : String → Option String) (date : String) (s : DB) :
    (∀ a : ActionItems, (s.reports.filter (fun r => r.date == date)).isEmpty = false →
      s.action_items.find? (fun x => x.date == date) = some a →
      generate_action_items llm date s = (Except.ok a.items, s, false)) ∧
    (∀ txt s1 c, generate_action_items llm date s = (Except.ok txt, s1, c) →
      generate_action_items llm date s1 = (Except.ok txt, s1, false)) := by
  constructor
  · intro a hrep hcache
    simp [generate_action_items, hrep, hcache]
  · intro txt s1 c hgen
    by_cases hrep : (s.reports.filter (fun r => r.date == date)).isEmpty = true
    · simp [generate_action_items, hrep] at hgen
    · have hrep' : (s.reports.filter (fun r => r.date == date)).isEmpty = false := by
        simpa using hrep
      cases hcache : s.action_items.find? (fun x => x.date == date) with
      | some a =>
          simp [generate_action_items, hrep', hcache] at hgen
          obtain ⟨h1, h2, _⟩ := hgen
          subst h1
          subst h2
          simp [generate_action_items, hrep', hcache]
      | none =>
          cases hllm : llm (prompt_for (s.reports.filter (fun r => r.date == date))) with
          | none => simp [generate_action_items, hrep', hcache, hllm] at hgen
          | some resp =>
              simp [generate_action_items, hrep', hcache, hllm] at hgen
              obtain ⟨h1, h2, _⟩ := hgen
              subst h1
              subst h2
              simp [generate_action_items, hrep', hcache]

/-- Witness for C4 with a cached record, a model that would answer "fresh",
and one report on file. -/
theorem c4_generate_idempotent_w :
    generate_action_items (fun _ => some "fresh") "2024-01-01"
      ⟨["A"], [⟨"2024-01-01", "A", "x", "y", ""⟩], [⟨"2024-01-01", "cached"⟩], []⟩ =
      (Except.ok "cached",
       ⟨["A"], [⟨"2024-01-01", "A", "x", "y", ""⟩], [⟨"2024-01-01", "cached"⟩], []⟩,
       false) :=
  (c4_generate_idempotent (fun _ => some "fresh") "2024-01-01"
      ⟨["A"], [⟨"2024-01-01", "A", "x", "y", ""⟩], [⟨"2024-01-01", "cached"⟩], []⟩).1
    ⟨"2024-01-01", "cached"⟩ (by rfl) (by rfl)

/-- C5: when the external model raises during generation, the call fails
with the 500 GenerationError and the state — in particular the ActionItems
cache — is unchanged, so a retry against a model that answers succeeds and
caches. -/
theorem c5_generation_failure_no_cache (llm : String → Option String) (date : String) (s : DB)
    (hrep : (s.reports.filter (fun r => r.date == date)).isEmpty = false)
    (hcache : s.action_items.find? (fun a => a.date == date) = none)
    (hfail : llm (prompt_for (s.reports.filter (fun r => r.date == date))) = none) :
    generate_action_items llm date s = (Except.error HErr.generationError, s, true) ∧
    HErr.generationError.status = 500 ∧
    ∀ llm2 resp, llm2 (prompt_for (s.reports.filter (fun r => r.date == date))) = some resp →
      generate_action_items llm2 date s =
        (Except.ok (py_strip resp),
         { s with action_items := s.action_items ++ [⟨date, py_strip resp⟩] }, true) := by
  refine ⟨?_, rfl, ?_⟩
  · simp [generate_action_items, hrep, hcache, hfail]
  · intro llm2 resp h
    simp [generate_action_items, hrep, hcache, h]

/-- Witness for C5: a raising model fails and caches nothing; the retry with
an answering model succeeds. -/
theorem c5_generation_failure_no_cache_w :
    generate_action_items (fun _ => none) "2024-01-01"
      ⟨["A"], [⟨"2024-01-01", "A", "x", "y", ""⟩], [], []⟩ =
      (Except.error HErr.generationError,
       ⟨["A"], [⟨"2024-01-01", "A", "x", "y", ""⟩], [], []⟩, true) ∧
    generate_action_items (fun _ => some " items ") "2024-01-01"
      ⟨["A"], [⟨"2024-01-01", "A", "x", "y", ""⟩], [], []⟩ =
      (Except.ok "items",
       ⟨["A"], [⟨"2024-01-01", "A", "x", "y", ""⟩], [⟨"2024-01-01", "items"⟩], []⟩,
       true) := by
  have h := c5_generation_failure_no_cache (fun _ => none) "2024-01-01"
    ⟨["A"], [⟨"2024-01-01", "A", "x", "y", ""⟩], [], []⟩ (by rfl) (by rfl) (by rfl)
  exact ⟨h.1, h.2.2 (fun _ => some " items ") " items " (by rfl)⟩

/-- C6: deleting an absent name fails with the 404 NotFound and changes
nothing; deleting a present name (names being unique per the User invariant)
removes exactly that user and exactly that user's reports, and leaves the
other users, the other reports, the ActionItems records and the admins
unchanged. -/
theorem c6_delete_user_frame (name : String) (s : DB) :
    HErr.notFound.status = 404 ∧
    (name ∉ s.users → delete_user name s = (Except.error HErr.notFound, s)) ∧
    (s.users.Nodup → name ∈ s.users →
      (delete_user name s).1 = Except.ok "User deleted successfully" ∧
      (delete_user name s).2.users = s.users.filter (fun u => u != name) ∧
      (delete_user name s).2.reports = s.reports.filter (fun r => !(r.name == name)) ∧
      (delete_user name s).2.action_items = s.action_items ∧
      (delete_user name s).2.admins = s.admins) := by
  refine ⟨rfl, ?_, ?_⟩
  · intro h
    have hfind : s.users.find? (fun u => u == name) = none := by
      refine List.find?_eq_none.2 (fun x hx hbeq => ?_)
      exact h (by simpa using (beq_iff_eq.1 hbeq ▸ hx))
    simp [delete_user, hfind]
  · intro hnodup hmem
    have hsome : (s.users.find? (fun u => u == name)).isSome = true :=
      List.find?_isSome.2 ⟨name, hmem, beq_self_eq_true name⟩
    obtain ⟨x, hfind⟩ := Option.isSome_iff_exists.1 hsome
    simp only [delete_user, hfind]
    exact ⟨trivial, hnodup.erase_eq_filter name, trivial, trivial, trivial⟩

/-- Witness for C6: deleting "A" from a two-user store with reports of both
users and a cached ActionItems record. -/
theorem c6_delete_user_frame_w :
    delete_user "C" ⟨["A", "B"], [], [], []⟩ =
      (Except.error HErr.notFound, ⟨["A", "B"], [], [], []⟩) ∧
    (delete_user "A"
      ⟨["A", "B"], [⟨"d", "A", "x", "y", ""⟩, ⟨"d", "B", "x", "y", ""⟩],
       [⟨"d", "i"⟩], [⟨"e", "p"⟩]⟩).2.users = ["B"] ∧
    (delete_user "A"
      ⟨["A", "B"], [⟨"d", "A", "x", "y", ""⟩, ⟨"d", "B", "x", "y", ""⟩],
       [⟨"d", "i"⟩], [⟨"e", "p"⟩]⟩).2.reports = [⟨"d", "B", "x", "y", ""⟩] ∧
    (delete_user "A"
      ⟨["A", "B"], [⟨"d", "A", "x", "y", ""⟩, ⟨"d", "B", "x", "y", ""⟩],
       [⟨"d", "i"⟩], [⟨"e", "p"⟩]⟩).2.action_items = [⟨"d", "i"⟩] := by
  have h1 := (c6_delete_user_frame "C" ⟨["A", "B"], [], [], []⟩).2.1 (by decide)
  have h2 := (c6_delete_user_frame "A"
    ⟨["A", "B"], [⟨"d", "A", "x", "y", ""⟩, ⟨"d", "B", "x", "y", ""⟩],
     [⟨"d", "i"⟩], [⟨"e", "p"⟩]⟩).2.2 (by decide) (by decide)
  obtain ⟨-, hu, hr, ha, -⟩ := h2
  exact ⟨h1, hu.trans (by decide), hr.trans (by decide), ha⟩

theorem blockers_cell_none_iff (b : String) :
    (if b == "" then "None" else b) = "None" ↔ (b = "" ∨ b = "None") := by
  by_cases hb : b = ""
  · simp [hb]
  · simp [hb]

/-- C7 counterexample: a report whose blockers field is the literal text
"None" produces a Blockers cell holding "None" although the field is
non-empty, so the cell holds "None" in a case where the field is not empty. -/
theorem c7_blockers_cell_cex :
    download_report "2024-01-01"
      ⟨["A"], [⟨"2024-01-01", "A", "x", "y", "None"⟩], [], []⟩ =
      Except.ok ⟨"MOM Consolidated Report - 2024-01-01", table_headers,
        [["1", "A", "x", "y", "None"]], none⟩ ∧
    ("None" : String) ≠ "" :=
  ⟨rfl, by decide⟩

/-- C7 amended: for a date with at least one Report (and at most one cached
ActionItems record per date, the documented cache invariant), the exported
document has the date in its title, the fixed header row, one data row per
report in listing order numbered from 1, a Blockers cell holding the literal
text "None" exactly when the blockers field is empty or is itself the
literal "None" (the cell is the field verbatim when non-empty), and an
Action Items section if and only if a non-empty cached record exists for the
date. -/
theorem c7_export_document (date : String) (s : DB)
    (hrep : (s.reports.filter (fun r => r.date == date)).isEmpty = false)
    (hone : ∀ a1 ∈ s.action_items, ∀ a2 ∈ s.action_items,
      a1.date = date → a2.date = date → a1 = a2) :
    ∃ doc, download_report date s = Except.ok doc ∧
      doc.title = "MOM Consolidated Report - " ++ date ∧
      doc.header = table_headers ∧
      doc.rows = (s.reports.filter (fun r => r.date == date)).enum.map (fun p =>
        [toString (p.1 + 1), p.2.name, p.2.yesterday, p.2.today,
         if p.2.blockers == "" then "None" else p.2.blockers]) ∧
      (∀ r ∈ s.reports.filter (fun r => r.date == date),
        ((if r.blockers == "" then "None" else r.blockers) = "None" ↔
          (r.blockers = "" ∨ r.blockers = "None"))) ∧
      (doc.actionSection.isSome = true ↔
        ∃ a ∈ s.action_items, a.date = date ∧ a.items ≠ "") ∧
      (∀ txt, doc.actionSection = some txt →
        ∃ a ∈ s.action_items, a.date = date ∧ a.items = txt) := by
  cases hfind : s.action_items.find? (fun a => a.date == date) with
  | none =>
      refine ⟨⟨"MOM Consolidated Report - " ++ date, table_headers,
        (s.reports.filter (fun r => r.date == date)).enum.map (fun p =>
          [toString (p.1 + 1), p.2.name, p.2.yesterday, p.2.today,
           if p.2.blockers == "" then "None" else p.2.blockers]), none⟩,
        ?_, rfl, rfl, rfl, fun r _ => blockers_cell_none_iff r.blockers, ?_, ?_⟩
      · simp [download_report, hrep, hfind]
      · constructor
        · intro h
          simp at h
        · rintro ⟨a, ham, hd, -⟩
          have := List.find?_eq_none.1 hfind a ham
          simp [hd] at this
      · intro txt h
        cases h
  | some a =>
      have ham := List.mem_of_find?_eq_some hfind
      have hadate : a.date = date := by
        have := List.find?_some hfind
        simpa using this
      by_cases hit : a.items = ""
      · have hbit : (a.items == "") = true := by simp [hit]
        refine ⟨⟨"MOM Consolidated Report - " ++ date, table_headers,
          (s.reports.filter (fun r => r.date == date)).enum.map (fun p =>
            [toString (p.1 + 1), p.2.name, p.2.yesterday, p.2.today,
             if p.2.blockers == "" then "None" else p.2.blockers]), none⟩,
          ?_, rfl, rfl, rfl, fun r _ => blockers_cell_none_iff r.blockers, ?_, ?_⟩
        · simp [download_report, hrep, hfind, hbit]
        · constructor
          · intro h
            simp at h
          · rintro ⟨b, hbm, hbd, hbi⟩
            exact absurd (hone a ham b hbm hadate hbd ▸ hit) hbi
        · intro txt h
          cases h
      · have hbit : (a.items == "") = false := by simp [hit]
        refine ⟨⟨"MOM Consolidated Report - " ++ date, table_headers,
          (s.reports.filter (fun r => r.date == date)).enum.map (fun p =>
            [toString (p.1 + 1), p.2.name, p.2.yesterday, p.2.today,
             if p.2.blockers == "" then "None" else p.2.blockers]), some a.items⟩,
          ?_, rfl, rfl, rfl, fun r _ => blockers_cell_none_iff r.blockers, ?_, ?_⟩
        · simp [download_report, hrep, hfind, hbit]
        · exact ⟨fun _ => ⟨a, ham, hadate, hit⟩, fun _ => rfl⟩
        · intro txt h
          have htxt : a.items = txt := by injection h
          exact ⟨a, ham, hadate, htxt⟩

/-- Witness for C7 amended: one report with empty blockers and one non-empty
cached record. -/
theorem c7_export_document_w :
    ∃ doc, download_report "2024-01-01"
        ⟨["A"], [⟨"2024-01-01", "A", "x", "y", ""⟩], [⟨"2024-01-01", "• build"⟩], []⟩ =
        Except.ok doc ∧
      doc.rows = [["1", "A", "x", "y", "None"]] ∧
      doc.actionSection.isSome = true := by
  obtain ⟨doc, h1, -, -, h4, -, h6, -⟩ := c7_export_document "2024-01-01"
    ⟨["A"], [⟨"2024-01-01", "A", "x", "y", ""⟩], [⟨"2024-01-01", "• build"⟩], []⟩
    (by rfl) (by decide)
  refine ⟨doc, h1, h4.trans (by rfl), ?_⟩
  exact h6.2 ⟨⟨"2024-01-01", "• build"⟩, by decide, rfl, by decide⟩

/-- C8 counterexample: with one Admin record (a different email) already in
the store, startup still seeds the default admin — the guard looks up the
fixed default email only, not whether any Admin exists — so the admin store
changes although an Admin already existed. -/
theorem c8_startup_seed_cex :
    (startup_event (fun p => "H" ++ p)
        ⟨[], [], [], [⟨"other@example.com", "h"⟩]⟩).admins =
      [⟨"other@example.com", "h"⟩, ⟨"aravind@gmail.com", "HAdmin@1234"⟩] ∧
    ([(⟨"other@example.com", "h"⟩ : Admin)] ≠ ([] : List Admin)) :=
  ⟨rfl, by decide⟩

/-- C8 amended: startup seeds the default Admin (fixed email, hashed fixed
password) if and only if no Admin with that fixed default email exists; when
such an admin exists the store is unchanged, but other Admin records do not
prevent seeding. -/
theorem c8_startup_seed (hash : String → String) (s : DB) :
    ((s.admins.find? (fun a => a.email == admin_email)).isSome = true →
      startup_event hash s = s) ∧
    (s.admins.find? (fun a => a.email == admin_email) = none →
      startup_event hash s =
        { s with admins := s.admins ++ [⟨admin_email, hash admin_password⟩] }) := by
  constructor
  · intro h
    obtain ⟨a, ha⟩ := Option.isSome_iff_exists.1 h
    simp [startup_event, ha]
  · intro h
    simp [startup_event, h]

/-- Witness for C8 amended: seeding on an empty admin store, no-op when the
default email is present. -/
theorem c8_startup_seed_w :
    startup_event (fun p => "H" ++ p) ⟨[], [], [], []⟩ =
      ⟨[], [], [], [⟨"aravind@gmail.com", "HAdmin@1234"⟩]⟩ ∧
    startup_event (fun p => "H" ++ p)
        ⟨[], [], [], [⟨"aravind@gmail.com", "old"⟩]⟩ =
      ⟨[], [], [], [⟨"aravind@gmail.com", "old"⟩]⟩ := by
  have h1 := (c8_startup_seed (fun p => "H" ++ p) ⟨[], [], [], []⟩).2 (by rfl)
  have h2 := (c8_startup_seed (fun p => "H" ++ p)
    ⟨[], [], [], [⟨"aravind@gmail.com", "old"⟩]⟩).1 (by rfl)
  exact ⟨h1.trans (by rfl), h2⟩

/-- C9: a login attempt either succeeds with the email itself as the bearer
token or fails with the 401 Unauthorized — never any other error — and it
fails exactly when no Admin with that email exists or password verification
returns false; an exception inside the verification primitive is caught and
yields false, i.e. a plain authentication failure. -/
theorem c9_login_unauthorized (pv : String → String → Option Bool)
    (email password : String) (s : DB) :
    HErr.unauthorized.status = 401 ∧
    (login pv email password s = Except.ok email ∨
      login pv email password s = Except.error HErr.unauthorized) ∧
    (login pv email password s = Except.error HErr.unauthorized ↔
      (s.admins.find? (fun a => a.email == email) = none ∨
        ∃ a, s.admins.find? (fun a => a.email == email) = some a ∧
          verify_password pv password a.password = false)) ∧
    (∀ p h, pv p h = none → verify_password pv p h = false) := by
  refine ⟨rfl, ?_, ?_, ?_⟩
  · cases hfind : s.admins.find? (fun a => a.email == email) with
    | none => exact Or.inr (by simp [login, authenticate_admin, hfind])
    | some a =>
        cases hv : verify_password pv password a.password with
        | true => exact Or.inl (by simp [login, authenticate_admin, hfind, hv])
        | false => exact Or.inr (by simp [login, authenticate_admin, hfind, hv])
  · cases hfind : s.admins.find? (fun a => a.email == email) with
    | none =>
        constructor
        · intro _
          exact Or.inl rfl
        · intro _
          simp [login, authenticate_admin, hfind]
    | some a =>
        cases hv : verify_password pv password a.password with
        | true =>
            constructor
            · intro h
              simp [login, authenticate_admin, hfind, hv] at h
            · rintro (h | ⟨b, hb, hbv⟩)
              · cases h
              · have hab : a = b := by injection hb
                rw [← hab] at hbv
                rw [hv] at hbv
                cases hbv
        | false =>
            constructor
            · intro _
              exact Or.inr ⟨a, rfl, hv⟩
            · intro _
              simp [login, authenticate_admin, hfind, hv]
  · intro p h hnone
    simp [verify_password, hnone]

/-- Witness for C9: a verification primitive that always raises yields a 401
for an existing admin, and the caught exception is reported as false. -/
theorem c9_login_unauthorized_w :
    login (fun _ _ => none) "aravind@gmail.com" "pw"
      ⟨[], [], [], [⟨"aravind@gmail.com", "hash"⟩]⟩ =
      Except.error HErr.unauthorized ∧
    verify_password (fun _ _ => none) "pw" "hash" = false := by
  have h := c9_login_unauthorized (fun _ _ => none) "aravind@gmail.com" "pw"
    ⟨[], [], [], [⟨"aravind@gmail.com", "hash"⟩]⟩
  exact ⟨h.2.2.1.2 (Or.inr ⟨⟨"aravind@gmail.com", "hash"⟩, by rfl, by rfl⟩),
    h.2.2.2 "pw" "hash" rfl⟩

/-- C10: for a date with no reports, `generate_action_items` fails with the
404 NotFound and neither consults the cache nor calls the model — even when
a cached record exists — while `get_action_items` for the same date still
returns the cached text. -/
theorem c10_no_reports_precedes_cache (llm : String → Option String)
    (date : String) (s : DB)
    (hrep : (s.reports.filter (fun r => r.date == date)).isEmpty = true) :
    HErr.notFound.status = 404 ∧
    generate_action_items llm date s = (Except.error HErr.notFound, s, false) ∧
    (∀ a : ActionItems, s.action_items.find? (fun x => x.date == date) = some a →
      get_action_items date s = a.items) := by
  refine ⟨rfl, ?_, ?_⟩
  · simp [generate_action_items, hrep]
  · intro a ha
    simp [get_action_items, ha]

/-- Witness for C10: a date with a cached record but no reports. -/
theorem c10_no_reports_precedes_cache_w :
    generate_action_items (fun _ => some "fresh") "2024-01-01"
      ⟨[], [], [⟨"2024-01-01", "cached"⟩], []⟩ =
      (Except.error HErr.notFound, ⟨[], [], [⟨"2024-01-01", "cached"⟩], []⟩, false) ∧
    get_action_items "2024-01-01" ⟨[], [], [⟨"2024-01-01", "cached"⟩], []⟩ = "cached" := by
  have h := c10_no_reports_precedes_cache (fun _ => some "fresh") "2024-01-01"
    ⟨[], [], [⟨"2024-01-01", "cached"⟩], []⟩ (by rfl)
  exact ⟨h.2.1, h.2.2 ⟨"2024-01-01", "cached"⟩ (by rfl)⟩

end Mom
